import Mathlib

/-!
Verification of the GraphRAG psychotherapist agent's pipeline core against its
natural-language specification.  The definitions below are a shallow embedding
of the Python sources: `services/safety_service.py`,
`graph_rag/services/safety_service.py`, `orchestrator/nodes/*.py`,
`orchestrator/graph_dag.py`, `graph_rag/core/pipeline.py`, `core/settings.py`
and `core/utils.py`.  Scores (Python floats over fractions with small decimal
denominators) are modelled as rationals; strings as Lean strings (lists of
code points, matching Python's code-point slicing and length).
-/

/-! ### String helpers (Python primitives used by the sources) -/

/-- Python's `needle in haystack` on lists of characters:
`needle` occurs contiguously inside `haystack`. -/
def listContains (hay needle : List Char) : Bool :=
  match hay with
  | [] => needle.isEmpty
  | _ :: t => needle.isPrefixOf hay || listContains t needle

/-- Python's `str.lower()` (ASCII case folding, which covers every keyword in
the sources). -/
def strLower (s : String) : String := ⟨s.data.map Char.toLower⟩

/-- Python's `kw in text` substring test. -/
def strContains (hay needle : String) : Bool := listContains hay.data needle.data

/-- Python's slice `s[:n]` (by code points). -/
def strTake (s : String) (n : Nat) : String := ⟨s.data.take n⟩

/-- Python's `str.strip()`: drop leading and trailing whitespace. -/
def pyStrip (s : String) : String :=
  ⟨((s.data.dropWhile Char.isWhitespace).reverse.dropWhile Char.isWhitespace).reverse⟩

/-- Python's `sep.join(parts)` (from `core/utils.py` usage sites it is always
`"\n".join`). -/
def joinSep (sep : String) : List String → String
  | [] => ""
  | [x] => x
  | x :: y :: t => x ++ sep ++ joinSep sep (y :: t)

/-- Python's `enumerate(l, n)`. -/
def enumFrom (n : Nat) : List α → List (Nat × α)
  | [] => []
  | x :: t => (n, x) :: enumFrom (n + 1) t

/-! ### `core/settings.py` -/

def VECTOR_TOP_K : Nat := 24
def GRAPH_MAX_HOPS : Nat := 2
def GRAPH_MAX_NODES : Nat := 200

def WEIGHT_VECTOR : ℚ := 6/10
def WEIGHT_GRAPH : ℚ := 3/10

def MAX_CONTEXT_SNIPPETS : Nat := 6
def MAX_CONTEXT_FACTS : Nat := 12
def MAX_CONTEXT_TOKENS : Nat := 1800

/-- `CRITICAL_KEYWORDS` of `core/settings.py`. -/
def CRITICAL_KEYWORDS : List String :=
  ["suicide", "kill myself", "end my life", "self harm",
   "hurt myself", "want to die", "no reason to live"]

/-- `HIGH_RISK_KEYWORDS` of `core/settings.py`. -/
def HIGH_RISK_KEYWORDS : List String :=
  ["depressed", "hopeless", "worthless", "alone",
   "scared", "afraid", "anxious", "panic"]

/-! ### `services/safety_service.py` -/

/-- The dict returned by `SafetyService.check_input` / `check_output`. -/
structure CheckResult where
  level : String
  score : ℚ
  should_escalate : Bool
deriving DecidableEq, Repr

/-- `SafetyService.check_input`: substring keyword triage over the lowercased
message (async in source, but deterministic and effect-free). -/
def check_input (text : String) : CheckResult :=
  let text_lower := strLower text
  if CRITICAL_KEYWORDS.any (fun kw => strContains text_lower kw) then
    ⟨"critical", 95/100, true⟩
  else if HIGH_RISK_KEYWORDS.any (fun kw => strContains text_lower kw) then
    ⟨"high_risk", 75/100, false⟩
  else
    ⟨"safe", 1/10, false⟩

/-- `SafetyService.check_output`: the source returns a constant safe verdict. -/
def check_output (_text : String) : CheckResult := ⟨"safe", 1/10, false⟩

/-! ### `graph_rag/services/safety_service.py` -/

inductive RiskLevel where
  | safe
  | low
  | moderate
  | high
  | critical
deriving DecidableEq, Repr

/-- `SafetyResult` dataclass. -/
structure SafetyResult where
  risk_level : RiskLevel
  risk_score : ℚ
  triggered_keywords : List String
  requires_escalation : Bool
  safe_response : Option String
deriving DecidableEq, Repr

/-- A word character for the regex `\b` boundary (Python `\w`, restricted to
ASCII, which covers the sources' patterns). -/
def isWordChar (c : Char) : Bool := c.isAlphanum || c == '_'

/-- Does `pat` match at the head of `rest`, with `\b` boundaries on both
sides?  `prev` is the character just before `rest` (none at string start).
All patterns in the source start and end with a word character. -/
def wbMatchHere (pat rest : List Char) (prev : Option Char) : Bool :=
  pat.isPrefixOf rest
  && (match prev with | none => true | some c => !(isWordChar c))
  && (match (rest.drop pat.length).head? with | none => true | some c => !(isWordChar c))

/-- Scan every position of `rest` for a `\b pat \b` match. -/
def wbSearchAux (pat : List Char) (prev : Option Char) : List Char → Bool
  | [] => wbMatchHere pat [] prev
  | c :: t => wbMatchHere pat (c :: t) prev || wbSearchAux pat (some c) t

/-- `re.search(r"\b pat \b", msg, re.IGNORECASE)` for a literal `pat`
(lower-case in the sources): case-insensitive word-boundary search. -/
def wbSearch (pat : String) (msg : String) : Bool :=
  wbSearchAux pat.data none (strLower msg).data

/-- One compiled pattern: its raw regex text (recorded in
`triggered_keywords`) and the literal alternatives the regex denotes
(`'?` and `[- ]?` expanded). -/
structure RegexPat where
  raw : String
  alts : List String
deriving DecidableEq, Repr

/-- `pattern.search(message)` for one compiled pattern. -/
def patMatches (p : RegexPat) (msg : String) : Bool :=
  p.alts.any (fun a => wbSearch a msg)

/-- `CRITICAL_KEYWORDS` regex list of `graph_rag/services/safety_service.py`. -/
def CRITICAL_PATTERNS : List RegexPat :=
  [⟨"\\bsuicide\\b", ["suicide"]⟩,
   ⟨"\\bsuicidal\\b", ["suicidal"]⟩,
   ⟨"\\bkill myself\\b", ["kill myself"]⟩,
   ⟨"\\bend my life\\b", ["end my life"]⟩,
   ⟨"\\bwant to die\\b", ["want to die"]⟩,
   ⟨"\\bdon'?t want to live\\b", ["don't want to live", "dont want to live"]⟩,
   ⟨"\\bself[- ]?harm\\b", ["self-harm", "self harm", "selfharm"]⟩,
   ⟨"\\bcut myself\\b", ["cut myself"]⟩,
   ⟨"\\bhurt myself\\b", ["hurt myself"]⟩,
   ⟨"\\boverdose\\b", ["overdose"]⟩]

/-- `HIGH_RISK_KEYWORDS` regex list of `graph_rag/services/safety_service.py`. -/
def HIGH_PATTERNS : List RegexPat :=
  [⟨"\\babuse\\b", ["abuse"]⟩,
   ⟨"\\babused\\b", ["abused"]⟩,
   ⟨"\\bviolence\\b", ["violence"]⟩,
   ⟨"\\bviolent\\b", ["violent"]⟩,
   ⟨"\\bhopeless\\b", ["hopeless"]⟩,
   ⟨"\\bno hope\\b", ["no hope"]⟩,
   ⟨"\\bworthless\\b", ["worthless"]⟩,
   ⟨"\\bno reason to live\\b", ["no reason to live"]⟩,
   ⟨"\\bgive up\\b", ["give up"]⟩,
   ⟨"\\bgiving up\\b", ["giving up"]⟩,
   ⟨"\\bcan'?t go on\\b", ["can't go on", "cant go on"]⟩]

/-- `MODERATE_RISK_KEYWORDS` regex list of
`graph_rag/services/safety_service.py`. -/
def MODERATE_PATTERNS : List RegexPat :=
  [⟨"\\bdepressed\\b", ["depressed"]⟩,
   ⟨"\\bdepression\\b", ["depression"]⟩,
   ⟨"\\banxiety\\b", ["anxiety"]⟩,
   ⟨"\\banxious\\b", ["anxious"]⟩,
   ⟨"\\bpanic attack\\b", ["panic attack"]⟩,
   ⟨"\\bscared\\b", ["scared"]⟩,
   ⟨"\\bterrified\\b", ["terrified"]⟩,
   ⟨"\\btrauma\\b", ["trauma"]⟩,
   ⟨"\\bptsd\\b", ["ptsd"]⟩,
   ⟨"\\beating disorder\\b", ["eating disorder"]⟩,
   ⟨"\\banorexia\\b", ["anorexia"]⟩,
   ⟨"\\bbulimia\\b", ["bulimia"]⟩]

/-- `CRISIS_RESPONSE` template (crisis-hotline resources). -/
def CRISIS_RESPONSE : String :=
  "\nI'm really concerned about what you've shared with me. Your safety is the top priority right now.\n\n**Please reach out for immediate support:**\n- 🆘 **Emergency Services**: 911 (US) or your local emergency number\n- 📱 **988 Suicide & Crisis Lifeline**: Call or text 988 (US)\n- 💬 **Crisis Text Line**: Text HOME to 741741\n\nThese services are available 24/7 and staffed by trained professionals who can help.\n\nYou're not alone, and there are people who care about you and want to help. Would you like me to provide more information about any of these resources?\n"

/-- `HIGH_RISK_RESPONSE` template. -/
def HIGH_RISK_RESPONSE : String :=
  "\nI hear you, and what you're going through sounds really difficult. I want to make sure you have access to the right support.\n\n**Support resources available to you:**\n- 📞 **SAMHSA Helpline**: 1-800-662-4357 (24/7, free, confidential)\n- 🌐 **SAMHSA Treatment Locator**: findtreatment.gov\n- 💬 **Crisis Text Line**: Text HOME to 741741\n\nIt's okay to reach out for help. Would you like to talk more about what you're experiencing?\n"

/-- One tier of the `analyze_message` scan: fold the tier's patterns over the
`(triggered, risk_score)` accumulator, appending each matching pattern's raw
text and taking `max` of the score with the tier weight `w`. -/
def scanTier (msg : String) (w : ℚ) (pats : List RegexPat)
    (acc : List String × ℚ) : List String × ℚ :=
  pats.foldl (fun a p => if patMatches p msg then (a.1 ++ [p.raw], max a.2 w) else a) acc

/-- `SafetyService.analyze_message`: scan the three tiers in order
(critical 0.95, high 0.75, moderate 0.5) with `max` accumulation, then map the
score through the fixed thresholds. -/
def analyze_message (message : String) : SafetyResult :=
  let acc0 : List String × ℚ := ([], 0)
  let acc1 := scanTier message (95/100) CRITICAL_PATTERNS acc0
  let acc2 := scanTier message (75/100) HIGH_PATTERNS acc1
  let acc3 := scanTier message (1/2) MODERATE_PATTERNS acc2
  let risk_score := acc3.2
  if risk_score ≥ 9/10 then
    ⟨.critical, risk_score, acc3.1, true, some CRISIS_RESPONSE⟩
  else if risk_score ≥ 7/10 then
    ⟨.high, risk_score, acc3.1, true, some HIGH_RISK_RESPONSE⟩
  else if risk_score ≥ 4/10 then
    ⟨.moderate, risk_score, acc3.1, false, none⟩
  else if risk_score > 0 then
    ⟨.low, risk_score, acc3.1, false, none⟩
  else
    ⟨.safe, risk_score, acc3.1, false, none⟩

/-! ### `orchestrator/nodes/hybrid_scorer.py` -/

/-- One entry of `state.vector_results` (keys `id`, `text`, `score` are
always present where the node reads them). -/
structure VectorHit where
  id : String
  text : String
  score : ℚ
deriving DecidableEq, Repr

/-- One entry of `state.graph_results`; the node reads `text` and `score`
with `dict.get` defaults, so they are optional. -/
structure GraphHit where
  id : String
  text : Option String
  score : Option ℚ
deriving DecidableEq, Repr

/-- One entry of `state.hybrid_results` (the dicts built by the node). -/
structure ScoredItem where
  id : String
  text : String
  type : String
  score : ℚ
deriving DecidableEq, Repr

/-- The ordering Python's stable `sorted(key=score, reverse=True)` realizes:
`a` may stand before `b` when `a`'s score is not smaller. -/
def scoreGe (a b : ScoredItem) : Prop := b.score ≤ a.score

instance : DecidableRel scoreGe := fun a b => inferInstanceAs (Decidable (b.score ≤ a.score))

instance : IsTotal ScoredItem scoreGe := ⟨fun a b => le_total b.score a.score⟩

instance : IsTrans ScoredItem scoreGe := ⟨fun _ _ _ hab hbc => le_trans hbc hab⟩

/-- The `combined` list of `hybrid_scorer_node`: vector hits weighted by
`WEIGHT_VECTOR`, then graph hits weighted by `WEIGHT_GRAPH` with
`result.get("text", "")` and `result.get("score", 0.5)` defaults. -/
def combinedHits (vector_results : List VectorHit) (graph_results : List GraphHit) :
    List ScoredItem :=
  vector_results.map (fun r => ⟨r.id, r.text, "vector", WEIGHT_VECTOR * r.score⟩)
    ++ graph_results.map
      (fun r => ⟨r.id, r.text.getD "", "graph", WEIGHT_GRAPH * r.score.getD (1/2)⟩)

/-- `hybrid_scorer_node`'s result list:
`sorted(combined, key=lambda x: x["score"], reverse=True)`.  Python's sort is
stable and `reverse=True` keeps equal elements in their original order, which
is exactly insertion sort under `scoreGe`. -/
def hybrid_scorer (vector_results : List VectorHit) (graph_results : List GraphHit) :
    List ScoredItem :=
  List.insertionSort scoreGe (combinedHits vector_results graph_results)

/-! ### `orchestrator/nodes/context_builder.py` -/

/-- The numbered snippet lines of `context_builder_node`: Python's
`enumerate(top_results, 1)` with empty-text entries skipped (but still
numbered) and each text sliced to 300 characters. -/
def contextParts (top_results : List ScoredItem) : List String :=
  (enumFrom 1 top_results).filterMap
    (fun ir => if ir.2.text ≠ "" then
        some (Nat.repr ir.1 ++ ". " ++ strTake ir.2.text 300)
      else none)

/-- `context_builder_node`'s `state.context`: header line plus the numbered,
truncated top `MAX_CONTEXT_SNIPPETS + MAX_CONTEXT_FACTS` results, joined with
newlines. -/
def context_builder (hybrid_results : List ScoredItem) : String :=
  let top_results := hybrid_results.take (MAX_CONTEXT_SNIPPETS + MAX_CONTEXT_FACTS)
  joinSep "\n" ("Relevant therapeutic knowledge:\n" :: contextParts top_results)

/-- `context_builder_node`'s `state.prompt` f-string. -/
def build_prompt (context age_range user_message : String) : String :=
  "You are Sahyog, an empathetic AI counselor for children and adolescents.\n\nContext:\n"
    ++ context
    ++ "\n\nUser (" ++ age_range ++ " years old): " ++ user_message
    ++ "\n\nProvide a supportive, age-appropriate response that helps the child understand and manage their feelings. Use the context provided to give evidence-based guidance."

/-! ### `orchestrator/graph_dag.py` — pipeline state and orchestration -/

/-- One entry of `state.provenance` (`core/utils.py`, `format_provenance`). -/
structure ProvEntry where
  source_id : String
  type : String
  score : ℚ
  snippet : String
deriving DecidableEq, Repr

/-- Python's `round(x, 3)` as used by `format_provenance`.  (Python rounds
half to even on floats; the tie case is immaterial to the claims proved
below, which never inspect rounded scores at a tie.) -/
def round3 (q : ℚ) : ℚ := (round (q * 1000) : ℤ) / 1000

/-- `core/utils.py`, `format_provenance`. -/
def format_provenance (sources : List ScoredItem) : List ProvEntry :=
  sources.map (fun s => ⟨s.id, s.type, round3 s.score, strTake s.text 200⟩)

/-- `core/utils.py`, `sanitize_input`: `text.strip()[:2000]`. -/
def sanitize_input (text : String) : String := strTake (pyStrip text) 2000

/-- The `PipelineState` dataclass of `orchestrator/graph_dag.py`.  Wall-clock
durations are not modelled; `node_timings` keeps the keys in insertion
order. -/
structure PipelineState where
  session_id : String
  user_message : String
  language : String := "en"
  age_range : String := "8-12"
  query_embedding : Option (List ℚ) := none
  vector_results : List VectorHit := []
  graph_results : List GraphHit := []
  hybrid_results : List ScoredItem := []
  context : String := ""
  prompt : String := ""
  llm_response : String := ""
  safety_level : String := "safe"
  safety_score : ℚ := 0
  should_escalate : Bool := false
  skip_llm : Bool := false
  provenance : List ProvEntry := []
  node_timings : List String := []
  error : Option String := none
deriving Repr

/-- One seed node returned by `graph_db.find_seed_nodes`. -/
structure SeedNode where
  id : String
  ntype : String
deriving DecidableEq, Repr

/-- The external collaborators the pipeline nodes call, as fallible
functions: a raised Python exception is `Except.error` with the exception
text. -/
structure Backends where
  embed_text : String → Except String (List ℚ)
  vector_search : List ℚ → Nat → String → Except String (List VectorHit)
  find_seed_nodes : String → String → Except String (List SeedNode)
  expand_graph : List String → Nat → Nat → Except String (List GraphHit)
  llm : String → Except String String

/-- `orchestrator/nodes/preprocess.py`. -/
def preprocess_node (b : Backends) (s : PipelineState) : Except String PipelineState := do
  let msg := sanitize_input s.user_message
  let emb ← b.embed_text msg
  return { s with user_message := msg, query_embedding := some emb,
                  node_timings := s.node_timings ++ ["preprocess"] }

/-- `orchestrator/nodes/safety_prefilter.py`: copy `check_input`'s verdict
into the state; `skip_llm` mirrors `should_escalate`. -/
def safety_prefilter_node (s : PipelineState) : PipelineState :=
  let result := check_input s.user_message
  { s with safety_level := result.level,
           safety_score := result.score,
           should_escalate := result.should_escalate,
           skip_llm := result.should_escalate,
           node_timings := s.node_timings ++ ["safety_prefilter"] }

/-- `orchestrator/nodes/vector_retriever.py`: search only when
`state.query_embedding` is truthy (not `None` and not empty). -/
def vector_retriever_node (b : Backends) (s : PipelineState) :
    Except String PipelineState := do
  let res ← match s.query_embedding with
    | some (x :: t) => b.vector_search (x :: t) VECTOR_TOP_K s.language
    | _ => pure s.vector_results
  return { s with vector_results := res,
                  node_timings := s.node_timings ++ ["vector_retrieval"] }

/-- `orchestrator/nodes/kg_mapper.py`: find seed nodes, expand only when some
exist. -/
def kg_mapper_node (b : Backends) (s : PipelineState) : Except String PipelineState := do
  let seeds ← b.find_seed_nodes s.user_message s.language
  let res ← match seeds with
    | [] => pure s.graph_results
    | _ => b.expand_graph (seeds.map (fun n => n.id)) GRAPH_MAX_HOPS GRAPH_MAX_NODES
  return { s with graph_results := res,
                  node_timings := s.node_timings ++ ["kg_mapping"] }

/-- `orchestrator/nodes/hybrid_scorer.py` as a state transform. -/
def hybrid_scorer_node (s : PipelineState) : PipelineState :=
  { s with hybrid_results := hybrid_scorer s.vector_results s.graph_results,
           node_timings := s.node_timings ++ ["hybrid_scoring"] }

/-- `orchestrator/nodes/context_builder.py` as a state transform. -/
def context_builder_node (s : PipelineState) : PipelineState :=
  let context := context_builder s.hybrid_results
  { s with context := context,
           prompt := build_prompt context s.age_range s.user_message,
           node_timings := s.node_timings ++ ["context_building"] }

/-- The fixed apology of `llm_invoker_node`'s `except` branch. -/
def LLM_APOLOGY : String := "I apologize, but I'm having trouble responding right now."

/-- `orchestrator/nodes/llm_invoker_gpt5.py`, `llm_invoker_node`: the call is
wrapped in `try/except`, so the node itself never raises — on failure it
stores the fixed apology and records the error in `state.error`. -/
def llm_invoker_node (b : Backends) (s : PipelineState) : PipelineState :=
  match b.llm s.prompt with
  | .ok r =>
      { s with llm_response := r, node_timings := s.node_timings ++ ["llm_invocation"] }
  | .error e =>
      { s with llm_response := LLM_APOLOGY, error := some e,
               node_timings := s.node_timings ++ ["llm_invocation"] }

/-- `orchestrator/nodes/safety_postfilter.py`: re-check the generated reply;
overwrite the level/score pair only on a strictly higher score, and only set
(never clear) `should_escalate`. -/
def safety_postfilter_node (s : PipelineState) : PipelineState :=
  let result := check_output s.llm_response
  let s :=
    if result.score > s.safety_score then
      { s with safety_score := result.score, safety_level := result.level }
    else s
  let s := if result.should_escalate then { s with should_escalate := true } else s
  { s with node_timings := s.node_timings ++ ["safety_postfilter"] }

/-- `orchestrator/nodes/provenance_builder.py`. -/
def provenance_builder_node (s : PipelineState) : PipelineState :=
  { s with provenance := format_provenance (s.hybrid_results.take 10),
           node_timings := s.node_timings ++ ["provenance"] }

/-- `orchestrator/nodes/response_streamer.py`: records timing only. -/
def response_streamer_node (s : PipelineState) : PipelineState :=
  { s with node_timings := s.node_timings ++ ["response_stream"] }

/-- The compiled LangGraph DAG of `build_graph`, linearized along its edges:
the two conditional edges (`should_escalate` after the prefilter, `skip_llm`
after the context builder) jump to `END`.  An exception raised by any node
propagates to the caller of `graph.ainvoke`. -/
def runPipeline (b : Backends) (s0 : PipelineState) : Except String PipelineState := do
  let s ← preprocess_node b s0
  let s := safety_prefilter_node s
  if s.should_escalate then return s
  let s ← vector_retriever_node b s
  let s ← kg_mapper_node b s
  let s := hybrid_scorer_node s
  let s := context_builder_node s
  if s.skip_llm then return s
  let s := llm_invoker_node b s
  let s := safety_postfilter_node s
  let s := provenance_builder_node s
  return response_streamer_node s

/-- The dict `process_message` returns: the success shape carries `timings`,
the degraded shape carries `error` instead. -/
structure ResponseDict where
  response : String
  safety_level : String
  safety_score : ℚ
  provenance : List ProvEntry
  escalated : Bool
  timings : Option (List String)
  error : Option String
deriving Repr

/-- The fixed degraded response of `process_message`'s `except` branch. -/
def DEGRADED_APOLOGY : String :=
  "I apologize, but I'm having trouble right now. Please try again."

/-- The initial `PipelineState` that `process_message` builds. -/
def initial_state (session_id user_message language age_range : String) : PipelineState :=
  { session_id := session_id, user_message := user_message,
    language := language, age_range := age_range }

/-- `orchestrator/graph_dag.py`, `process_message`: build the initial state,
run the graph, and catch any exception into the fixed degraded response. -/
def process_message (b : Backends) (session_id user_message : String)
    (language : String := "en") (age_range : String := "8-12") : ResponseDict :=
  match runPipeline b (initial_state session_id user_message language age_range) with
  | .ok f =>
      ⟨f.llm_response, f.safety_level, f.safety_score, f.provenance,
        f.should_escalate, some f.node_timings, none⟩
  | .error e =>
      ⟨DEGRADED_APOLOGY, "error", 0, [], false, none, some e⟩

/-! ### `orchestrator/nodes/llm_invoker_gpt5.py`, `llm_invoke_streaming` -/

/-- `llm_invoke_streaming`'s forwarding loop over the backend chunk stream:
each chunk's `delta.content` is an optional string, and the callback is
invoked exactly on the truthy ones (not `None`, not empty).  The returned
list is the sequence of arguments passed to the callback. -/
def llm_invoke_streaming (chunks : List (Option String)) : List String :=
  chunks.filterMap (fun c =>
    match c with
    | some s => if s ≠ "" then some s else none
    | none => none)

/-- Python's `"".join` / total text assembled from a list of fragments. -/
def strJoin : List String → String
  | [] => ""
  | x :: t => x ++ strJoin t

/-! ### `graph_rag/core/pipeline.py` -/

/-- The pipeline-state keys of `graph_rag/core/pipeline.py` that
`safety_check` and `generate_response` read or write. -/
structure GRState where
  query : String := ""
  context : String := ""
  safety_triggered : Bool := false
  response : List String := []
deriving DecidableEq, Repr

/-- The crisis reply `graph_rag`'s `safety_check` installs. -/
def GR_SAFETY_RESPONSE : String :=
  "I'm concerned about what you've shared. Your safety matters. Please contact the 988 Suicide & Crisis Lifeline (call/text 988) immediately. You're not alone, and help is available 24/7."

/-- `graph_rag/core/pipeline.py`, `safety_check`: plain substring scan of the
lowercased query against the critical keyword list. -/
def gr_safety_check (s : GRState) : GRState :=
  let query := strLower s.query
  let critical : List String := ["suicide", "kill myself", "end my life", "want to die"]
  if critical.any (fun kw => strContains query kw) then
    { s with safety_triggered := true, response := [GR_SAFETY_RESPONSE] }
  else
    { s with safety_triggered := false }

/-- The generation fallback of `graph_rag`'s `generate_response` (the two
adjacent Python string literals concatenated). -/
def GEN_FALLBACK : String :=
  "I apologize, but I'm having trouble responding. If you need support, please call 988 for the Crisis Lifeline."

/-- `graph_rag/core/pipeline.py`, `generate_response`: skip when safety
triggered, serve from cache when hit, else run the chain (the streamed chunks
concatenated into one reply) and on any exception fall back to the fixed
988 apology; the state records no error. -/
def generate_response (llm : String → String → Except String String)
    (cacheGet : String → Option String) (s : GRState) : GRState :=
  if s.safety_triggered then s
  else
    match cacheGet s.query with
    | some cached => { s with response := [cached] }
    | none =>
        match llm s.query s.context with
        | .ok r => { s with response := [r] }
        | .error _ => { s with response := [GEN_FALLBACK] }

/-! ### Spec-side definitions (for refinement comparison only) -/

/-- `RiskLevel.value` strings of the source enum. -/
def riskLevelName : RiskLevel → String
  | .safe => "safe"
  | .low => "low"
  | .moderate => "moderate"
  | .high => "high"
  | .critical => "critical"

/-- Modelled from the spec's words: the fixed threshold mapping
"critical when score ≥ 0.9, high when 0.7 ≤ score < 0.9, moderate when
0.4 ≤ score < 0.7, low when 0 < score < 0.4, else safe". -/
def specThresholdLevel (q : ℚ) : RiskLevel :=
  if q ≥ 9/10 then .critical
  else if q ≥ 7/10 then .high
  else if q ≥ 4/10 then .moderate
  else if q > 0 then .low
  else .safe

/-- Does any pattern of a tier match the message? -/
def tierMatches (msg : String) (pats : List RegexPat) : Bool :=
  pats.any (fun p => patMatches p msg)

/-- Modelled from the spec's words: "score = max over all matched tiers of
that tier's fixed severity weight (critical 0.95, high 0.75, moderate 0.5)",
0 when no tier matches. -/
def tierMaxScore (msg : String) : ℚ :=
  max (if tierMatches msg CRITICAL_PATTERNS then 95/100 else 0)
    (max (if tierMatches msg HIGH_PATTERNS then 75/100 else 0)
      (if tierMatches msg MODERATE_PATTERNS then 1/2 else 0))

/-! ### Concrete collaborators used by witness statements -/

/-- A backend set whose generation call raises. -/
def llmDownBackends : Backends :=
  { embed_text := fun _ => .ok [1/2],
    vector_search := fun _ _ _ => .ok [],
    find_seed_nodes := fun _ _ => .ok [],
    expand_graph := fun _ _ _ => .ok [],
    llm := fun _ => .error "connection refused" }

/-- A backend set whose embedding call raises, so the pipeline run itself
errors out before the prefilter. -/
def embedDownBackends : Backends :=
  { llmDownBackends with embed_text := fun _ => .error "embedding service down" }

/-- A healthy backend set with canned retrieval results. -/
def okBackends : Backends :=
  { embed_text := fun _ => .ok [1/2],
    vector_search := fun _ _ _ => .ok [⟨"v1", "vector text", 9/10⟩],
    find_seed_nodes := fun _ _ => .ok [⟨"n1", "topic"⟩],
    expand_graph := fun _ _ _ => .ok [⟨"g1", some "graph text", some (6/10)⟩],
    llm := fun _ => .ok "Here is some supportive guidance." }

/-! ### Helper lemmas -/

/-- The score component of one tier scan: the tier weight is folded in with
`max` exactly once if any pattern of the tier matches. -/
theorem scanTier_snd (msg : String) (w : ℚ) (pats : List RegexPat) (acc : List String × ℚ) :
    (scanTier msg w pats acc).2 = if tierMatches msg pats then max acc.2 w else acc.2 := by
  induction pats generalizing acc with
  | nil => simp [scanTier, tierMatches]
  | cons p ps ih =>
    by_cases hp : patMatches p msg
    · have h1 : scanTier msg w (p :: ps) acc
          = scanTier msg w ps (acc.1 ++ [p.raw], max acc.2 w) := by
        simp [scanTier, hp]
      rw [h1, ih]
      by_cases hps : tierMatches msg ps <;>
        simp [tierMatches, hp, hps, max_assoc]
    · have h1 : scanTier msg w (p :: ps) acc = scanTier msg w ps acc := by
        simp [scanTier, hp]
      rw [h1, ih]
      simp [tierMatches, hp]

/-- `analyze_message`'s score is the max (not the sum) of the matched tiers'
fixed weights. -/
theorem analyze_message_score (msg : String) :
    (analyze_message msg).risk_score = tierMaxScore msg := by
  have key : (scanTier msg (1/2) MODERATE_PATTERNS
      (scanTier msg (75/100) HIGH_PATTERNS
        (scanTier msg (95/100) CRITICAL_PATTERNS (([], 0) : List String × ℚ)))).2
      = tierMaxScore msg := by
    rw [scanTier_snd, scanTier_snd, scanTier_snd]
    unfold tierMaxScore
    by_cases h1 : tierMatches msg CRITICAL_PATTERNS <;>
      by_cases h2 : tierMatches msg HIGH_PATTERNS <;>
        by_cases h3 : tierMatches msg MODERATE_PATTERNS <;>
          simp [h1, h2, h3, max_def] <;> norm_num
  simp only [analyze_message]
  repeat' split
  all_goals simpa using key

/-- `analyze_message`'s discrete level is the threshold mapping of its own
score. -/
theorem analyze_message_level (msg : String) :
    (analyze_message msg).risk_level = specThresholdLevel ((analyze_message msg).risk_score) := by
  simp only [analyze_message, specThresholdLevel]
  repeat' split
  all_goals simp_all

/-- `analyze_message`'s escalation flag and canned response are determined by
the discrete level: critical and high escalate with their tier's template,
nothing else does. -/
theorem analyze_message_flags (msg : String) :
    (analyze_message msg).requires_escalation
      = ((analyze_message msg).risk_level == RiskLevel.critical
          || (analyze_message msg).risk_level == RiskLevel.high) ∧
    (analyze_message msg).safe_response
      = (if (analyze_message msg).risk_level = RiskLevel.critical then some CRISIS_RESPONSE
         else if (analyze_message msg).risk_level = RiskLevel.high then some HIGH_RISK_RESPONSE
         else none) := by
  simp only [analyze_message]
  repeat' split
  all_goals simp_all

/-- `check_input` escalates exactly on its critical tier: the `high_risk`
branch returns `should_escalate = False`. -/
theorem check_input_escalate (msg : String) :
    (check_input msg).should_escalate = ((check_input msg).level == "critical") := by
  unfold check_input
  by_cases h1 : (CRITICAL_KEYWORDS.any fun kw => strContains (strLower msg) kw) = true
  · rw [if_pos h1]
    decide
  · rw [if_neg h1]
    by_cases h2 : (HIGH_RISK_KEYWORDS.any fun kw => strContains (strLower msg) kw) = true
    · rw [if_pos h2]
      decide
    · rw [if_neg h2]
      decide

/-- `check_input` returns the `0.1` default floor exactly on its `safe`
branch (where no keyword matched). -/
theorem check_input_floor (msg : String) :
    (check_input msg).level = "safe" ↔ (check_input msg).score = 1/10 := by
  unfold check_input
  by_cases h1 : (CRITICAL_KEYWORDS.any fun kw => strContains (strLower msg) kw) = true
  · rw [if_pos h1]
    constructor <;> intro h
    · exact absurd h (by decide)
    · norm_num at h
  · rw [if_neg h1]
    by_cases h2 : (HIGH_RISK_KEYWORDS.any fun kw => strContains (strLower msg) kw) = true
    · rw [if_pos h2]
      constructor <;> intro h
      · exact absurd h (by decide)
      · norm_num at h
    · rw [if_neg h2]
      simp

/-- Filtering an `orderedInsert` by an exact score value either prepends the
inserted element (when its score is that value — every element it was moved
past scores strictly higher) or leaves the filter unchanged: the heart of the
stability of the fusion sort. -/
theorem filter_orderedInsert (q : ℚ) (x : ScoredItem) (l : List ScoredItem) :
    (List.orderedInsert scoreGe x l).filter (fun e => e.score == q)
      = if x.score == q then x :: l.filter (fun e => e.score == q)
        else l.filter (fun e => e.score == q) := by
  induction l with
  | nil =>
    by_cases hx : (x.score == q) = true <;> simp [List.orderedInsert, hx]
  | cons b t ih =>
    by_cases hr : scoreGe x b
    · simp only [List.orderedInsert, if_pos hr]
      by_cases hx : (x.score == q) = true <;> simp [hx, List.filter_cons]
    · have hlt : x.score < b.score := not_le.mp hr
      simp only [List.orderedInsert, if_neg hr]
      by_cases hb : (b.score == q) = true
      · have hbq : b.score = q := by simpa using hb
        have hxq : (x.score == q) = false := by
          simp only [beq_eq_false_iff_ne, ne_eq]
          intro hc
          exact absurd (hbq ▸ hc ▸ hlt) (lt_irrefl _)
        simp [List.filter_cons, hb, ih, hxq]
      · simp only [List.filter_cons, hb, ih]
        by_cases hx : (x.score == q) = true <;> simp [hx, hb]

/-- Stability of the fusion sort: the sublist at any fixed score value is
exactly the input's sublist at that value, in the original order. -/
theorem filter_insertionSort (q : ℚ) (l : List ScoredItem) :
    (List.insertionSort scoreGe l).filter (fun e => e.score == q)
      = l.filter (fun e => e.score == q) := by
  induction l with
  | nil => rfl
  | cons x t ih =>
    simp only [List.insertionSort]
    rw [filter_orderedInsert]
    by_cases hx : (x.score == q) = true <;> simp [hx, ih, List.filter_cons]

/-- Length of a separator join, bounded by a uniform per-part cap. -/
theorem joinSep_length_le (sep : String) (c : Nat) :
    ∀ l : List String, (∀ s ∈ l, s.length ≤ c) →
      (joinSep sep l).length ≤ l.length * (c + sep.length)
  | [], _ => by simp [joinSep]
  | [x], h => by
    have hx := h x (by simp)
    simp only [joinSep, List.length_cons, List.length_nil]
    omega
  | x :: y :: t, h => by
    have hx := h x (by simp)
    have ht := joinSep_length_le sep c (y :: t) (fun s hs => h s (by simp [hs]))
    simp only [joinSep, String.length_append, List.length_cons] at *
    have : (y :: t).length = t.length + 1 := by simp
    nlinarith [ht]

/-- The indices produced by `enumFrom k l` stay below `k + l.length`. -/
theorem enumFrom_indices {α : Type} (l : List α) (k : Nat) :
    ∀ p ∈ enumFrom k l, p.1 < k + l.length := by
  induction l generalizing k with
  | nil => simp [enumFrom]
  | cons x t ih =>
    intro p hp
    simp only [enumFrom, List.mem_cons] at hp
    rcases hp with rfl | hp
    · simp
    · have := ih (k + 1) p hp
      simp only [List.length_cons]
      omega

/-- Decimal representations of the item numbers `1..18` are at most 2
characters. -/
theorem repr_length_le_two : ∀ i < 19, (Nat.repr i).length ≤ 2 := by decide

/-- `enumFrom` preserves length. -/
theorem enumFrom_length {α : Type} (k : Nat) (l : List α) :
    (enumFrom k l).length = l.length := by
  induction l generalizing k with
  | nil => rfl
  | cons x xs ih => simp [enumFrom, ih]

/-- Each numbered snippet line is at most `2 + 2 + 300` characters when at
most 18 items are numbered. -/
theorem contextParts_mem_length (top : List ScoredItem) (htop : top.length ≤ 18) :
    ∀ s ∈ contextParts top, s.length ≤ 304 := by
  intro s hs
  simp only [contextParts, List.mem_filterMap] at hs
  obtain ⟨p, hp, hps⟩ := hs
  have hidx : p.1 < 19 := by
    have := enumFrom_indices top 1 p hp
    omega
  by_cases ht : p.2.text ≠ ""
  · rw [if_pos ht] at hps
    have hs' : s = Nat.repr p.1 ++ ". " ++ strTake p.2.text 300 := by
      exact (Option.some_inj.mp hps).symm
    subst hs'
    have h1 : (Nat.repr p.1).length ≤ 2 := repr_length_le_two p.1 hidx
    have h2 : (strTake p.2.text 300).length ≤ 300 := by
      simp only [strTake, String.length]
      simp [List.length_take]
    simp only [String.length_append]
    have h3 : (". " : String).length = 2 := rfl
    omega
  · rw [if_neg ht] at hps
    exact absurd hps (by simp)

/-- The snippet list is never longer than the ranked list it numbers. -/
theorem contextParts_length_le (top : List ScoredItem) :
    (contextParts top).length ≤ top.length := by
  unfold contextParts
  exact (List.length_filterMap_le _ _).trans (le_of_eq (enumFrom_length 1 top))

/-- Appending to the empty string is the identity. -/
theorem empty_append_str (s : String) : "" ++ s = s := by
  cases s
  rfl

set_option maxRecDepth 8000 in
/-- The assembled context on six maximal items: its exact length of 1856
characters, which the builder (which never consults `MAX_CONTEXT_TOKENS`)
lets exceed 1800. -/
theorem c6_len_eq :
    (context_builder (List.replicate 6
      ⟨"a", String.mk (List.replicate 300 'a'), "vector", 0⟩)).length = 1856 := rfl

/-- Any run whose prefilter escalates ends at the conditional edge right
after the prefilter: the final state is the prefiltered state, and no later
node (retrieval, fusion, generation) is entered. -/
theorem runPipeline_escalates (b : Backends) (s0 : PipelineState) (v : List ℚ)
    (hemb : b.embed_text (sanitize_input s0.user_message) = Except.ok v)
    (hesc : (check_input (sanitize_input s0.user_message)).should_escalate = true) :
    runPipeline b s0 = Except.ok (safety_prefilter_node
      { s0 with user_message := sanitize_input s0.user_message,
                query_embedding := some v,
                node_timings := s0.node_timings ++ ["preprocess"] }) := by
  unfold runPipeline preprocess_node
  simp only [hemb, bind, Except.bind, pure, Except.pure]
  have hcond : (safety_prefilter_node
      { s0 with user_message := sanitize_input s0.user_message,
                query_embedding := some v,
                node_timings := s0.node_timings ++ ["preprocess"] }).should_escalate = true := by
    unfold safety_prefilter_node
    exact hesc
  rw [if_pos hcond]

/-! ### Claim theorems -/

/-- C1: for the input "I want to kill myself" the prefilter escalates
(level `critical`), the run short-circuits to the terminal edge — the result
is independent of the generation backend, so the LLM is never called — but
the final state's `llm_response` is left as the EMPTY string: the claimed
fixed crisis-hotline safety reply is never installed, and `process_message`
hands the caller an empty `response`. -/
theorem c1_escalation_run_short_circuits (b : Backends) (v : List ℚ)
    (h : b.embed_text "I want to kill myself" = Except.ok v) :
    (∀ llm2, runPipeline { b with llm := llm2 }
        (initial_state "s1" "I want to kill myself" "en" "8-12")
      = runPipeline b (initial_state "s1" "I want to kill myself" "en" "8-12")) ∧
    (∃ s : PipelineState,
      runPipeline b (initial_state "s1" "I want to kill myself" "en" "8-12")
        = Except.ok s ∧
      s.should_escalate = true ∧ s.safety_level = "critical" ∧
      s.skip_llm = true ∧ s.llm_response = "") ∧
    (process_message b "s1" "I want to kill myself").escalated = true ∧
    (process_message b "s1" "I want to kill myself").safety_level = "critical" ∧
    (process_message b "s1" "I want to kill myself").response = "" := by
  have hsan : sanitize_input "I want to kill myself" = "I want to kill myself" := by decide
  have hck : check_input "I want to kill myself" = ⟨"critical", 95/100, true⟩ := by
    unfold check_input
    rw [if_pos (by decide)]
  have hesc : (check_input (sanitize_input "I want to kill myself")).should_escalate = true := by
    rw [hsan, hck]
  have hemb : b.embed_text
      (sanitize_input (PipelineState.user_message
        (initial_state "s1" "I want to kill myself" "en" "8-12"))) = Except.ok v := by
    show b.embed_text (sanitize_input "I want to kill myself") = Except.ok v
    rw [hsan]; exact h
  have hrun := runPipeline_escalates b
    (initial_state "s1" "I want to kill myself" "en" "8-12") v hemb hesc
  have hfields : ∀ s0 : PipelineState,
      (safety_prefilter_node s0).should_escalate
          = (check_input s0.user_message).should_escalate ∧
        (safety_prefilter_node s0).safety_level = (check_input s0.user_message).level ∧
        (safety_prefilter_node s0).skip_llm = (check_input s0.user_message).should_escalate ∧
        (safety_prefilter_node s0).llm_response = s0.llm_response := by
    intro s0
    unfold safety_prefilter_node
    exact ⟨rfl, rfl, rfl, rfl⟩
  refine ⟨?_, ⟨_, hrun, ?_, ?_, ?_, ?_⟩, ?_, ?_, ?_⟩
  · intro llm2
    have hemb2 : Backends.embed_text { b with llm := llm2 }
        (sanitize_input (PipelineState.user_message
          (initial_state "s1" "I want to kill myself" "en" "8-12"))) = Except.ok v := hemb
    rw [runPipeline_escalates { b with llm := llm2 }
      (initial_state "s1" "I want to kill myself" "en" "8-12") v hemb2 hesc, hrun]
  · rw [(hfields _).1]
    show (check_input (sanitize_input "I want to kill myself")).should_escalate = true
    rw [hsan, hck]
  · rw [(hfields _).2.1]
    show (check_input (sanitize_input "I want to kill myself")).level = "critical"
    rw [hsan, hck]
  · rw [(hfields _).2.2.1]
    show (check_input (sanitize_input "I want to kill myself")).should_escalate = true
    rw [hsan, hck]
  · rw [(hfields _).2.2.2]
    rfl
  · simp only [process_message]
    rw [hrun]
    show (safety_prefilter_node _).should_escalate = true
    rw [(hfields _).1]
    show (check_input (sanitize_input "I want to kill myself")).should_escalate = true
    rw [hsan, hck]
  · simp only [process_message]
    rw [hrun]
    show (safety_prefilter_node _).safety_level = "critical"
    rw [(hfields _).2.1]
    show (check_input (sanitize_input "I want to kill myself")).level = "critical"
    rw [hsan, hck]
  · simp only [process_message]
    rw [hrun]
    show (safety_prefilter_node _).llm_response = ""
    rw [(hfields _).2.2.2]
    rfl

/-- C1 witness: the theorem applied at a healthy concrete backend set — the
crisis input escalates with level critical and the caller receives an empty
reply. -/
theorem c1_escalation_run_short_circuits_witness :
    (process_message okBackends "s1" "I want to kill myself").escalated = true ∧
    (process_message okBackends "s1" "I want to kill myself").safety_level = "critical" ∧
    (process_message okBackends "s1" "I want to kill myself").response = "" :=
  (c1_escalation_run_short_circuits okBackends [1/2] rfl).2.2

/-- C2 counterexample: "I feel hopeless" sits in the high tier of both
classifiers, yet `check_input` returns `should_escalate = false` for it — the
claim that the high tier always escalates is false on
`services/safety_service.py` (and `check_input` carries no canned response
text at all), though `graph_rag`'s `analyze_message` does escalate there. -/
theorem c2_high_tier_no_escalation_counterexample :
    (check_input "I feel hopeless").level = "high_risk" ∧
    (check_input "I feel hopeless").should_escalate = false ∧
    (analyze_message "I feel hopeless").risk_level = RiskLevel.high ∧
    (analyze_message "I feel hopeless").requires_escalation = true := by
  have hchk : check_input "I feel hopeless" = ⟨"high_risk", 75/100, false⟩ := by
    unfold check_input
    rw [if_neg (by decide), if_pos (by decide)]
  have hsc : (analyze_message "I feel hopeless").risk_score = 75/100 := by
    rw [analyze_message_score]
    unfold tierMaxScore
    rw [show tierMatches "I feel hopeless" CRITICAL_PATTERNS = false from by decide,
        show tierMatches "I feel hopeless" HIGH_PATTERNS = true from by decide,
        show tierMatches "I feel hopeless" MODERATE_PATTERNS = false from by decide]
    norm_num [max_def]
  have hlv : (analyze_message "I feel hopeless").risk_level = RiskLevel.high := by
    rw [analyze_message_level, hsc]
    unfold specThresholdLevel
    norm_num
  refine ⟨by rw [hchk], by rw [hchk], hlv, ?_⟩
  rw [(analyze_message_flags "I feel hopeless").1, hlv]
  decide

/-- C2 amended: in the `graph_rag` classifier, escalation holds exactly at
the critical and high levels and the canned response is the tier's template
(none below high); in the `services` classifier `check_input`, escalation
holds exactly at the `critical` level — its `high_risk` tier does not
escalate and it carries no canned response field at all. -/
theorem c2_escalation_flags_amended (msg : String) :
    (analyze_message msg).requires_escalation
      = ((analyze_message msg).risk_level == RiskLevel.critical
          || (analyze_message msg).risk_level == RiskLevel.high) ∧
    (analyze_message msg).safe_response
      = (if (analyze_message msg).risk_level = RiskLevel.critical then some CRISIS_RESPONSE
         else if (analyze_message msg).risk_level = RiskLevel.high then some HIGH_RISK_RESPONSE
         else none) ∧
    (check_input msg).should_escalate = ((check_input msg).level == "critical") :=
  ⟨(analyze_message_flags msg).1, (analyze_message_flags msg).2, check_input_escalate msg⟩

/-- C3 counterexample: on a text matching nothing, `check_input` returns the
positive default floor 0.1 with level "safe", but the claimed threshold
mapping sends 0.1 (which is strictly between 0 and 0.4) to "low" — the
returned level is not the threshold-determined one. -/
theorem c3_default_floor_level_counterexample :
    (check_input "hello").level = "safe" ∧
    (check_input "hello").score = 1/10 ∧
    specThresholdLevel ((check_input "hello").score) = RiskLevel.low ∧
    riskLevelName (specThresholdLevel ((check_input "hello").score))
      ≠ (check_input "hello").level := by
  have h : check_input "hello" = ⟨"safe", 1/10, false⟩ := by
    unfold check_input
    rw [if_neg (by decide), if_neg (by decide)]
  have h2 : specThresholdLevel ((1:ℚ)/10) = RiskLevel.low := by
    unfold specThresholdLevel
    norm_num
  rw [h]
  exact ⟨rfl, rfl, h2,
    by rw [show ((⟨"safe", 1/10, false⟩ : CheckResult)).score = 1/10 from rfl, h2] ; decide⟩

/-- C3 amended: `analyze_message`'s score is the max (never the sum) of the
matched tiers' weights (0.95 / 0.75 / 0.5, and 0 when no tier matches) and
its level is exactly the threshold mapping of that score; `check_input`
instead returns its positive default floor 0.1 exactly when nothing matched,
and labels that floor "safe" rather than the threshold-mandated "low". -/
theorem c3_score_max_thresholds_amended (msg : String) :
    (analyze_message msg).risk_score = tierMaxScore msg ∧
    (analyze_message msg).risk_level
      = specThresholdLevel ((analyze_message msg).risk_score) ∧
    ((check_input msg).level = "safe" ↔ (check_input msg).score = 1/10) :=
  ⟨analyze_message_score msg, analyze_message_level msg, check_input_floor msg⟩

/-- C4: fusion weights every vector hit by `WEIGHT_VECTOR` and every graph
hit by `WEIGHT_GRAPH` (defaulting a missing relation score to 0.5), and the
output is the two weighted lists concatenated and stably sorted
non-increasing by weighted score: sorted, a permutation of the weighted
concatenation, and order-preserving within every tie class. -/
theorem c4_fusion_weighted_sorted_stable (v : List VectorHit) (g : List GraphHit) :
    List.Pairwise (fun a b : ScoredItem => b.score ≤ a.score) (hybrid_scorer v g) ∧
    (hybrid_scorer v g).Perm
      (v.map (fun r => ⟨r.id, r.text, "vector", WEIGHT_VECTOR * r.score⟩)
        ++ g.map (fun r => ⟨r.id, r.text.getD "", "graph", WEIGHT_GRAPH * r.score.getD (1/2)⟩)) ∧
    ∀ q : ℚ, (hybrid_scorer v g).filter (fun e => e.score == q)
      = ((v.map (fun r => ⟨r.id, r.text, "vector", WEIGHT_VECTOR * r.score⟩)
          ++ g.map (fun r => ⟨r.id, r.text.getD "", "graph", WEIGHT_GRAPH * r.score.getD (1/2)⟩))
            : List ScoredItem).filter (fun e => e.score == q) := by
  refine ⟨?_, ?_, ?_⟩
  · exact List.sorted_insertionSort scoreGe (combinedHits v g)
  · exact List.perm_insertionSort scoreGe (combinedHits v g)
  · intro q
    exact filter_insertionSort q (combinedHits v g)

/-- C5: when a vector hit and a graph hit share the id "x", the fusion output
keeps BOTH entries (two entries with that id), not just the higher-weighted
one — the claimed deduplication does not happen in the code. -/
theorem c5_id_collision_kept_twice :
    (hybrid_scorer [⟨"x", "a", 1⟩] [⟨"x", some "b", some 1⟩]).length = 2 ∧
    (hybrid_scorer [⟨"x", "a", 1⟩] [⟨"x", some "b", some 1⟩]).countP
      (fun e => e.id == "x") = 2 := by
  have hp := List.perm_insertionSort scoreGe
    (combinedHits [⟨"x", "a", 1⟩] [⟨"x", some "b", some 1⟩])
  exact ⟨hp.length_eq.trans (by decide), (hp.countP_eq _).trans (by decide)⟩

/-- C6 counterexample: six ranked items of 300 characters each yield an
assembled context of 1856 characters, exceeding the configured
`MAX_CONTEXT_TOKENS = 1800` ceiling — the builder truncates per item but
never measures the total or drops trailing items against the ceiling. -/
theorem c6_ceiling_exceeded_counterexample :
    MAX_CONTEXT_TOKENS <
      (context_builder (List.replicate 6
        ⟨"a", String.mk (List.replicate 300 'a'), "vector", 0⟩)).length := by
  rw [c6_len_eq]
  decide

/-- C6 amended: the context length is bounded, but only by the fixed
structural constant 5795 (at most 19 joined parts of at most 305 characters
each: header plus 18 items of ≤ 300 truncated characters with ≤ 4 characters
of numbering), never by the configured `MAX_CONTEXT_TOKENS` ceiling, which
the builder does not consult; no trailing-item dropping exists. -/
theorem c6_context_bounded_amended (l : List ScoredItem) :
    (context_builder l).length ≤ 5795 := by
  unfold context_builder
  show (joinSep "\n" ("Relevant therapeutic knowledge:\n"
    :: contextParts (l.take (MAX_CONTEXT_SNIPPETS + MAX_CONTEXT_FACTS)))).length ≤ 5795
  have htop : (l.take (MAX_CONTEXT_SNIPPETS + MAX_CONTEXT_FACTS)).length ≤ 18 := by
    rw [List.length_take]
    simp [MAX_CONTEXT_SNIPPETS, MAX_CONTEXT_FACTS]
  have hall : ∀ s ∈ ("Relevant therapeutic knowledge:\n"
      :: contextParts (l.take (MAX_CONTEXT_SNIPPETS + MAX_CONTEXT_FACTS))), s.length ≤ 304 := by
    intro s hs
    rcases List.mem_cons.mp hs with rfl | hs
    · decide
    · exact contextParts_mem_length _ htop s hs
  have hlen : ("Relevant therapeutic knowledge:\n"
      :: contextParts (l.take (MAX_CONTEXT_SNIPPETS + MAX_CONTEXT_FACTS))).length ≤ 19 := by
    simp only [List.length_cons]
    have := (contextParts_length_le (l.take (MAX_CONTEXT_SNIPPETS + MAX_CONTEXT_FACTS))).trans htop
    omega
  have hb := joinSep_length_le "\n" 304 _ hall
  have hsep : ("\n" : String).length = 1 := rfl
  rw [hsep] at hb
  have := Nat.mul_le_mul_right (304 + 1) hlen
  omega

/-- C7: whenever the pipeline run raises (any stage, any backend),
`process_message` catches it and returns exactly the fixed degraded
response: the apology text, `safety_level = "error"`, an empty provenance
list, and the error text recorded — the exception never propagates. -/
theorem c7_degraded_response_on_exception (b : Backends) (sid msg lang age e : String)
    (h : runPipeline b (initial_state sid msg lang age) = Except.error e) :
    process_message b sid msg lang age
      = ⟨DEGRADED_APOLOGY, "error", 0, [], false, none, some e⟩ := by
  simp only [process_message]
  rw [h]

/-- C7 witness: a backend set whose embedding call raises — the caller still
receives the well-formed degraded response object. -/
theorem c7_degraded_response_on_exception_witness :
    process_message embedDownBackends "s1" "hello" "en" "8-12"
      = ⟨DEGRADED_APOLOGY, "error", 0, [], false, none, some "embedding service down"⟩ :=
  c7_degraded_response_on_exception embedDownBackends "s1" "hello" "en" "8-12"
    "embedding service down" rfl

/-- C8 counterexample: on a failing generation backend, `llm_invoker_node`'s
fixed apology contains no crisis-resource pointer at all (no "988", no
"crisis"), contrary to the claim that the reply carries an apology PLUS a
crisis-resource pointer (the error is recorded, and the node returns
normally). -/
theorem c8_no_crisis_pointer_counterexample :
    (llm_invoker_node llmDownBackends
        (initial_state "s1" "hello" "en" "8-12")).llm_response
      = "I apologize, but I'm having trouble responding right now." ∧
    strContains (strLower ((llm_invoker_node llmDownBackends
        (initial_state "s1" "hello" "en" "8-12")).llm_response)) "988" = false ∧
    strContains (strLower ((llm_invoker_node llmDownBackends
        (initial_state "s1" "hello" "en" "8-12")).llm_response)) "crisis" = false ∧
    (llm_invoker_node llmDownBackends
        (initial_state "s1" "hello" "en" "8-12")).error = some "connection refused" := by
  exact ⟨rfl, by decide, by decide, rfl⟩

/-- C8 amended: generation failure is recoverable in both implementations —
neither raises out of the pipeline — but the claimed conjunction splits:
`llm_invoker_node` installs a fixed apology WITHOUT a crisis pointer and
records the error in `state.error`; `graph_rag`'s `generate_response`
installs an apology WITH the 988 crisis pointer but records no error. -/
theorem c8_generation_failure_amended (b : Backends) (s : PipelineState) (e : String)
    (llm2 : String → String → Except String String)
    (cg : String → Option String) (gs : GRState)
    (h1 : b.llm s.prompt = Except.error e)
    (h2 : gs.safety_triggered = false)
    (h3 : cg gs.query = none)
    (h4 : llm2 gs.query gs.context = Except.error e) :
    (llm_invoker_node b s).llm_response = LLM_APOLOGY ∧
    (llm_invoker_node b s).error = some e ∧
    strContains (strLower LLM_APOLOGY) "988" = false ∧
    strContains (strLower LLM_APOLOGY) "crisis" = false ∧
    generate_response llm2 cg gs = { gs with response := [GEN_FALLBACK] } ∧
    strContains (strLower GEN_FALLBACK) "988" = true := by
  unfold llm_invoker_node generate_response
  rw [h1, h2, h3, h4]
  exact ⟨rfl, rfl, by decide, by decide, rfl, by decide⟩

/-- C8 witness: concrete failing backends for both implementations. -/
theorem c8_generation_failure_amended_witness :
    (llm_invoker_node llmDownBackends
        { session_id := "s1", user_message := "hello" }).llm_response = LLM_APOLOGY ∧
    (llm_invoker_node llmDownBackends
        { session_id := "s1", user_message := "hello" }).error = some "connection refused" ∧
    strContains (strLower LLM_APOLOGY) "988" = false ∧
    strContains (strLower LLM_APOLOGY) "crisis" = false ∧
    generate_response (fun _ _ => Except.error "connection refused") (fun _ => none)
        { query := "how do I cope?" }
      = { query := "how do I cope?", response := [GEN_FALLBACK] } ∧
    strContains (strLower GEN_FALLBACK) "988" = true :=
  c8_generation_failure_amended llmDownBackends
    { session_id := "s1", user_message := "hello" } "connection refused"
    (fun _ _ => Except.error "connection refused") (fun _ => none)
    { query := "how do I cope?" } rfl rfl rfl rfl

/-- C9 counterexample: the streaming invoker forwards backend chunks
verbatim, with no longest-common-prefix differencing — fed a sequence of
monotonically-growing prefixes, it re-sends the already-delivered prefix
wholesale, and the concatenation of the emitted deltas is not the final
text. -/
theorem c9_prefix_resend_counterexample :
    llm_invoke_streaming [some "I", some "I am"] = ["I", "I am"] ∧
    strJoin (llm_invoke_streaming [some "I", some "I am"]) ≠ "I am" := by decide

/-- C9 amended: the streaming invoker emits exactly the truthy backend
chunks in order, so the concatenation of the emitted deltas equals the
concatenation of the backend-supplied delta contents — the final full text
exactly when the backend itself supplies disjoint deltas (as the OpenAI
stream does), with no prefix-differencing performed by the caller. -/
theorem c9_streaming_forwarding_amended (chunks : List (Option String)) :
    strJoin (llm_invoke_streaming chunks) = strJoin (chunks.map (fun c => c.getD "")) := by
  induction chunks with
  | nil => rfl
  | cons c t ih =>
    cases c with
    | none =>
      simp only [llm_invoke_streaming, List.filterMap_cons, List.map_cons, strJoin,
        Option.getD_none] at *
      rw [ih, empty_append_str]
    | some v =>
      by_cases hv : v = ""
      · subst hv
        simp only [llm_invoke_streaming, List.filterMap_cons, List.map_cons, strJoin,
          Option.getD_some] at *
        rw [if_neg (by simp), ih, empty_append_str]
      · simp only [llm_invoke_streaming, List.filterMap_cons, List.map_cons, strJoin,
          Option.getD_some] at *
        rw [if_pos (by simpa using hv)]
        rw [strJoin, ih]

/-- C10: the safety postfilter is monotone and sticky on every state: the
safety score never decreases (the level/score pair is overwritten only when
the output check scores strictly higher), an incoming escalation flag is
never cleared (the output flag is the disjunction with the output check's
flag), and the generated reply is never overwritten. -/
theorem c10_postfilter_monotone_sticky (s : PipelineState) :
    s.safety_score ≤ (safety_postfilter_node s).safety_score ∧
    (safety_postfilter_node s).should_escalate
      = (s.should_escalate || (check_output s.llm_response).should_escalate) ∧
    (safety_postfilter_node s).llm_response = s.llm_response ∧
    (safety_postfilter_node s).safety_level
      = (if (check_output s.llm_response).score > s.safety_score
          then (check_output s.llm_response).level else s.safety_level) := by
  unfold safety_postfilter_node check_output
  simp
  split_ifs with h
  · exact ⟨le_of_lt h, rfl, rfl, rfl⟩
  · exact ⟨le_refl _, rfl, rfl, rfl⟩
